import Mathlib

/-!
Verification development for the dynamic-DNS agent `dyn` (main.go).

The Go program periodically discovers the caller's public IPv4 address via a
DNS query, locates a Cloudflare "A" record, and updates the record when the
two addresses differ.  The embedding below translates the relevant parts of
`main.go` into Lean: every provider round trip (Cloudflare API, DNS lookup)
is represented by an explicit response oracle, and every definition tracks
the list of provider update calls the code issues, so that claims about
"no network call" are statements about that list.
-/

namespace Dyn

/-- A Go `net.IP` value: a byte slice (length 0 models Go's nil IP, length 4
an IPv4 address, length 16 an IPv6 or IPv4-in-IPv6 address). -/
abbrev IP := List Nat

/-- The 12 leading bytes of an IPv4-in-IPv6 address (Go `v4InV6Prefix`). -/
def v4InV6Header : List Nat := [0, 0, 0, 0, 0, 0, 0, 0, 0, 0, 255, 255]

/-- Go `net.IP.To4`: the 4-byte form of an IPv4 address, or nil (here `[]`)
when the receiver is not an IPv4 address. -/
def to4 (ip : IP) : IP :=
  if ip.length = 4 then ip
  else if ip.length = 16 ∧ ip.take 12 = v4InV6Header then ip.drop 12
  else []

/-- Go `net.IP.Equal`: true when both byte slices represent the same address,
also across the 4-byte and 16-byte representations of an IPv4 address. -/
def ipEqual (ip x : IP) : Bool :=
  if ip.length = x.length then ip == x
  else if ip.length = 4 ∧ x.length = 16 then
    (x.take 12 == v4InV6Header) && (ip == x.drop 12)
  else if ip.length = 16 ∧ x.length = 4 then
    (ip.take 12 == v4InV6Header) && (ip.drop 12 == x)
  else false

/-- `ip` is a byte-slice representation of an IPv4 address: either the 4-byte
form or the 16-byte IPv4-in-IPv6 form. -/
def isIPv4Rep (ip : IP) : Prop :=
  ip.length = 4 ∨ (ip.length = 16 ∧ ip.take 12 = v4InV6Header)

instance (ip : IP) : Decidable (isIPv4Rep ip) := by
  unfold isIPv4Rep; infer_instance

/-- On IPv4 representations, Go's `net.IP.Equal` agrees with equality of the
canonical 4-byte forms produced by `To4`. -/
lemma ipEqual_iff_to4 (a b : IP) (ha : isIPv4Rep a) (hb : isIPv4Rep b) :
    ipEqual a b = true ↔ to4 a = to4 b := by
  rcases ha with ha4 | ⟨ha16, haH⟩ <;> rcases hb with hb4 | ⟨hb16, hbH⟩
  · -- both 4-byte
    simp [ipEqual, to4, ha4, hb4]
  · -- a 4-byte, b 16-byte mapped
    simp [ipEqual, to4, ha4, hb16, hbH]
  · -- a 16-byte mapped, b 4-byte
    simp [ipEqual, to4, ha16, haH, hb4]
  · -- both 16-byte mapped
    simp only [ipEqual, to4, ha16, hb16, haH, hbH]
    norm_num
    constructor
    · intro h; rw [h]
    · intro h
      calc a = a.take 12 ++ a.drop 12 := (List.take_append_drop 12 a).symm
        _ = b.take 12 ++ b.drop 12 := by rw [haH, hbH, h]
        _ = b := List.take_append_drop 12 b

/-- Projection of cloudflare-go `cf.DNSRecord` onto the fields `main.go`
reads or writes (the Go field `Type` is rendered `rtype`).  The Go zero
value has every field empty. -/
structure DNSRecord where
  ID : String
  ZoneID : String
  Name : String
  rtype : String
  Content : String
  deriving DecidableEq

/-- The zero value of `cf.DNSRecord`. -/
def emptyDNSRecord : DNSRecord := ⟨"", "", "", "", ""⟩

/-- The `dynIP` struct of `main.go` (the `api` client handle is represented
by the response oracles passed to each operation). -/
structure dynIP where
  zoneName : String
  record : DNSRecord
  aRecord : String
  rIP : IP
  dIP : IP
  deriving DecidableEq

/-- One call to `api.UpdateDNSRecord(zoneID, recordID, record)`. -/
structure UpdateCall where
  zoneID : String
  recordID : String
  record : DNSRecord
  deriving DecidableEq

/-- `dynIP.Sync`: when the dynamic and recorded addresses are equal (by
`net.IP.Equal`) it returns nil at once; otherwise it copies the located
record, replaces its `Content` with `d.dIP.String()` (the stdlib stringifier
is the oracle `ipStr`), and issues one `UpdateDNSRecord` call keyed by the
located record's `ZoneID` and `ID`.  The first component lists the provider
update calls made; the second is the returned error. -/
def Sync (ipStr : IP → String) (updateResp : UpdateCall → Except String Unit)
    (d : dynIP) : List UpdateCall × Except String Unit :=
  if ipEqual d.dIP d.rIP then ([], Except.ok ())
  else
    let record := { d.record with Content := ipStr d.dIP }
    let call : UpdateCall := ⟨d.record.ZoneID, d.record.ID, record⟩
    ([call], updateResp call)

/-- C1: `Sync` issues a provider update if and only if the discovered and
recorded IPv4 addresses differ in canonical 4-byte form; when they agree it
makes no update call and returns nil, even when the two byte-slice
representations differ. -/
theorem sync_update_iff_canonical_differ (ipStr : IP → String)
    (updateResp : UpdateCall → Except String Unit) (d : dynIP)
    (hA : isIPv4Rep d.dIP) (hB : isIPv4Rep d.rIP) :
    ((Sync ipStr updateResp d).1 ≠ [] ↔ to4 d.dIP ≠ to4 d.rIP)
    ∧ (to4 d.dIP = to4 d.rIP →
        Sync ipStr updateResp d = ([], Except.ok ())) := by
  have h := ipEqual_iff_to4 d.dIP d.rIP hA hB
  by_cases he : ipEqual d.dIP d.rIP = true
  · have hto : to4 d.dIP = to4 d.rIP := h.mp he
    refine ⟨?_, fun _ => by simp [Sync, he]⟩
    simp [Sync, he, hto]
  · have hto : ¬ to4 d.dIP = to4 d.rIP := fun hc => he (h.mpr hc)
    refine ⟨?_, fun hc => absurd hc hto⟩
    simp [Sync, he, hto]

/-- Witness for C1 at a concrete state: the discovered address is the 4-byte
form of 203.0.113.7 and the recorded address its 16-byte mapped form; the
canonical forms agree, so `Sync` makes no call and returns nil. -/
theorem sync_update_iff_canonical_differ_witness :
    isIPv4Rep [203, 0, 113, 7]
    ∧ isIPv4Rep (v4InV6Header ++ [203, 0, 113, 7])
    ∧ Sync (fun _ => "203.0.113.7") (fun _ => Except.ok ())
        { zoneName := "example.com", record := emptyDNSRecord,
          aRecord := "home",
          rIP := v4InV6Header ++ [203, 0, 113, 7], dIP := [203, 0, 113, 7] }
      = ([], Except.ok ()) :=
  ⟨by decide, by decide,
    (sync_update_iff_canonical_differ _ _ _ (by decide) (by decide)).2
      (by decide)⟩

/-- The fully qualified name `main.go` matches against:
`fmt.Sprintf("%s.%s", d.aRecord, d.zoneName)`. -/
def fqdn (aRecord zoneName : String) : String := aRecord ++ "." ++ zoneName

/-- The scan loop of `dynIP.getRecord`: the first listed record whose `Name`
equals the fully qualified name (the loop breaks at the first match). -/
def findARecord (recs : List DNSRecord) (name : String) : Option DNSRecord :=
  recs.find? (fun r => r.Name == name)

/-- `dynIP.getRecord`: resolves the zone ID (`api.ZoneIDByName`), lists the
zone's "A" records (`api.DNSRecords`), and stores the first record whose
name equals `aRecord ++ "." ++ zoneName` together with its parsed address
`net.ParseIP(r.Content).To4()` (the stdlib parse is the oracle `parse`).
On a provider error the receiver is left unchanged and the error returned;
when no record matches, the receiver is likewise unchanged and nil is
returned. -/
def getRecord (parse : String → IP) (zoneIDResp : Except String String)
    (recsResp : String → Except String (List DNSRecord)) (d : dynIP) :
    dynIP × Option String :=
  match zoneIDResp with
  | Except.error e => (d, some e)
  | Except.ok zoneID =>
    match recsResp zoneID with
    | Except.error e => (d, some e)
    | Except.ok recs =>
      match findARecord recs (fqdn d.aRecord d.zoneName) with
      | some r => ({ d with record := r, rIP := parse r.Content }, none)
      | none => (d, none)

/-- Helper for C5: `List.find?` selects an element satisfying the predicate
such that every earlier element fails it. -/
lemma find?_first_split {α : Type} (p : α → Bool) :
    ∀ (l : List α) (r : α), l.find? p = some r →
      ∃ l₁ l₂, l = l₁ ++ r :: l₂ ∧ ∀ s ∈ l₁, p s = false := by
  intro l
  induction l with
  | nil => intro r h; simp at h
  | cons x xs ih =>
    intro r h
    by_cases hx : p x = true
    · rw [List.find?_cons_of_pos _ hx] at h
      cases h
      exact ⟨[], xs, rfl, by simp⟩
    · rw [List.find?_cons_of_neg _ hx] at h
      obtain ⟨l₁, l₂, hl, hall⟩ := ih r h
      refine ⟨x :: l₁, l₂, by rw [hl]; rfl, ?_⟩
      intro s hs
      rcases List.mem_cons.mp hs with hs | hs
      · subst hs; exact Bool.eq_false_iff.mpr hx
      · exact hall s hs

/-- C5: the record locator selects the first listed record whose name is
exactly `recordName ++ "." ++ zoneName`, selects nothing when no name is
exactly equal, and in particular records named "home.sub.example.com" or
"homex.example.com" never match zone "example.com" with label "home". -/
theorem locate_selects_first_exact_match (recs : List DNSRecord)
    (a z : String) :
    (∀ r, findARecord recs (fqdn a z) = some r →
        r.Name = fqdn a z
        ∧ ∃ l₁ l₂, recs = l₁ ++ r :: l₂ ∧ ∀ s ∈ l₁, s.Name ≠ fqdn a z)
    ∧ (findARecord recs (fqdn a z) = none ↔ ∀ r ∈ recs, r.Name ≠ fqdn a z)
    ∧ ((∀ r ∈ recs, r.Name = "home.sub.example.com"
          ∨ r.Name = "homex.example.com") →
        findARecord recs (fqdn "home" "example.com") = none) := by
  refine ⟨?_, ?_, ?_⟩
  · intro r h
    have hname : r.Name = fqdn a z := by
      have := List.find?_some h
      simpa using this
    refine ⟨hname, ?_⟩
    obtain ⟨l₁, l₂, hl, hall⟩ := find?_first_split _ recs r h
    refine ⟨l₁, l₂, hl, fun s hs => ?_⟩
    have := hall s hs
    simpa using this
  · rw [findARecord, List.find?_eq_none]
    constructor
    · intro h r hr; have := h r hr; simpa using this
    · intro h r hr; simpa using h r hr
  · intro h
    rw [findARecord, List.find?_eq_none]
    intro r hr
    rcases h r hr with hn | hn <;> rw [hn] <;> decide

/-- Witness for C5: a zone listing holding only "home.sub.example.com" and
"homex.example.com" yields no match for label "home" in "example.com". -/
theorem locate_selects_first_exact_match_witness :
    findARecord
      [⟨"r1", "z1", "home.sub.example.com", "A", "198.51.100.5"⟩,
       ⟨"r2", "z1", "homex.example.com", "A", "198.51.100.6"⟩]
      (fqdn "home" "example.com") = none :=
  (locate_selects_first_exact_match
      [⟨"r1", "z1", "home.sub.example.com", "A", "198.51.100.5"⟩,
       ⟨"r2", "z1", "homex.example.com", "A", "198.51.100.6"⟩]
      "home" "example.com").2.2 (by decide)

/-- C6: whenever the discovered IP differs from the recorded IP, `Sync`
makes exactly one provider call, keyed by the located record's zone ID and
record ID (never by name), whose payload is the located record with only
its `Content` replaced by the discovered IP. -/
theorem update_payload_copies_record_keyed_by_id (ipStr : IP → String)
    (updateResp : UpdateCall → Except String Unit) (d : dynIP)
    (h : ipEqual d.dIP d.rIP = false) :
    (Sync ipStr updateResp d).1
      = [⟨d.record.ZoneID, d.record.ID,
          { d.record with Content := ipStr d.dIP }⟩] := by
  simp [Sync, h]

/-- Witness for C6 at a concrete drifted state. -/
theorem update_payload_copies_record_keyed_by_id_witness :
    (Sync (fun _ => "198.51.100.9") (fun _ => Except.ok ())
        { zoneName := "example.com",
          record := ⟨"rec7", "zone3", "dyn.example.com", "A", "198.51.100.5"⟩,
          aRecord := "dyn",
          rIP := [198, 51, 100, 5], dIP := [198, 51, 100, 9] }).1
      = [⟨"zone3", "rec7",
          ⟨"rec7", "zone3", "dyn.example.com", "A", "198.51.100.9"⟩⟩] :=
  update_payload_copies_record_keyed_by_id _ _ _ (by decide)

/-- C9: reconciliation is idempotent: a first `Sync` on a drifted state
makes exactly one update call, and a second `Sync` with the same discovered
IP on an already-synced state makes zero update calls. -/
theorem sync_idempotent (ipStr : IP → String)
    (resp₁ resp₂ : UpdateCall → Except String Unit) (d₁ d₂ : dynIP)
    (hdrift : ipEqual d₁.dIP d₁.rIP = false)
    (hsame : d₂.dIP = d₁.dIP)
    (hsynced : ipEqual d₂.dIP d₂.rIP = true) :
    (Sync ipStr resp₁ d₁).1.length = 1
    ∧ (Sync ipStr resp₂ d₂).1.length = 0 := by
  constructor
  · simp [Sync, hdrift]
  · simp [Sync, hsynced]

/-- Witness for C9: drift 198.51.100.5 → 198.51.100.9 updates once on the
first call and not at all once the record content is the discovered IP. -/
theorem sync_idempotent_witness :
    (Sync (fun _ => "198.51.100.9") (fun _ => Except.ok ())
        { zoneName := "example.com",
          record := ⟨"rec7", "zone3", "dyn.example.com", "A", "198.51.100.5"⟩,
          aRecord := "dyn", rIP := [198, 51, 100, 5],
          dIP := [198, 51, 100, 9] }).1.length = 1
    ∧ (Sync (fun _ => "198.51.100.9") (fun _ => Except.ok ())
        { zoneName := "example.com",
          record := ⟨"rec7", "zone3", "dyn.example.com", "A", "198.51.100.9"⟩,
          aRecord := "dyn", rIP := [198, 51, 100, 9],
          dIP := [198, 51, 100, 9] }).1.length = 0 :=
  sync_idempotent _ _ _ _ _ (by decide) (by decide) (by decide)

/-- Outcome of a Go computation that may also terminate the process with a
runtime fault (an out-of-range slice index). -/
inductive GoResult (α : Type) where
  | ok (a : α)
  | err (e : String)
  | crash (msg : String)
  deriving DecidableEq

/-- `newPublicIP`: performs the DNS lookup (`resolver.lookup`, whose
`LookupIPAddr` response is the oracle `lookupResp`, a list of resolved
addresses); on lookup error returns the wrapped error, otherwise returns
`dns.ip[0].IP`.  The index expression `dns.ip[0]` is unguarded in the
source, so a successful lookup with an empty answer list is the runtime
fault "index out of range". -/
def newPublicIP (lookupResp : Except String (List IP)) : GoResult IP :=
  match lookupResp with
  | Except.error e => GoResult.err ("DNS lookup error: " ++ e)
  | Except.ok ips =>
    match ips with
    | [] => GoResult.crash "index out of range"
    | ip :: _ => GoResult.ok ip

/-- C7 (refuted): a successful lookup whose response contains no addresses
does not produce an error result; the unguarded `dns.ip[0]` makes it a
runtime fault instead. -/
theorem empty_answer_is_crash_not_error :
    newPublicIP (Except.ok []) = GoResult.crash "index out of range"
    ∧ ∀ e, newPublicIP (Except.ok []) ≠ GoResult.err e := by
  exact ⟨rfl, fun e h => by simp [newPublicIP] at h⟩

/-- The provider and resolver responses one loop iteration of `main`
consumes. -/
structure TickEnv where
  lookupResp : Except String (List IP)
  zoneIDResp : Except String String
  recsResp : String → Except String (List DNSRecord)
  updateResp : UpdateCall → Except String Unit

/-- Observable outcome of one loop iteration of `main`: `aborted e` models
`log.Error(err); return` after a discovery failure (the logged message is
`e`); `crashed` models a runtime fault; `completed locateErr updateCalls
syncErr` models an iteration that ran to its end, where `locateErr` is the
logged `getRecord` error (if any), `updateCalls` the provider update calls
issued, and `syncErr` the logged `Sync` error (if any). -/
inductive TickOutcome where
  | aborted (e : String)
  | crashed (msg : String)
  | completed (locateErr : Option String) (updateCalls : List UpdateCall)
      (syncErr : Option String)
  deriving DecidableEq

/-- The provider update calls an outcome issued. -/
def TickOutcome.updates : TickOutcome → List UpdateCall
  | TickOutcome.aborted _ => []
  | TickOutcome.crashed _ => []
  | TickOutcome.completed _ calls _ => calls

/-- The body of the `for range time.NewTicker(tick).C` loop in `main`:
discover the public IP (on error, log and return); build a fresh `dynIP`
with zero-valued `record` and `rIP`; run `getRecord`, logging any error;
then run `Sync` unconditionally, logging any error. -/
def tickBody (parse : String → IP) (ipStr : IP → String)
    (zoneName aRecord : String) (env : TickEnv) : TickOutcome :=
  match newPublicIP env.lookupResp with
  | GoResult.crash m => TickOutcome.crashed m
  | GoResult.err e => TickOutcome.aborted e
  | GoResult.ok dIP =>
    let dyn : dynIP :=
      { zoneName := zoneName, record := emptyDNSRecord, aRecord := aRecord,
        rIP := [], dIP := dIP }
    let located := getRecord parse env.zoneIDResp env.recsResp dyn
    let synced := Sync ipStr env.updateResp located.1
    TickOutcome.completed located.2 synced.1
      (match synced.2 with
       | Except.ok _ => none
       | Except.error e => some e)

/-- The loop of `main`, driven by the sequence of per-tick environments:
each iteration runs `tickBody`; an aborted (or crashed) iteration ends the
process, so no further environments are consumed. -/
def runLoop (parse : String → IP) (ipStr : IP → String)
    (zoneName aRecord : String) : List TickEnv → List TickOutcome
  | [] => []
  | env :: rest =>
    match tickBody parse ipStr zoneName aRecord env with
    | TickOutcome.aborted e => [TickOutcome.aborted e]
    | TickOutcome.crashed m => [TickOutcome.crashed m]
    | o => o :: runLoop parse ipStr zoneName aRecord rest

/-- C4: a public-IP discovery failure is fatal: the tick's outcome is the
logged abort, and no further tick runs no matter how many environments
remain. -/
theorem discovery_failure_aborts_loop (parse : String → IP)
    (ipStr : IP → String) (zoneName aRecord e : String) (env : TickEnv)
    (rest : List TickEnv) (h : env.lookupResp = Except.error e) :
    runLoop parse ipStr zoneName aRecord (env :: rest)
      = [TickOutcome.aborted ("DNS lookup error: " ++ e)] := by
  simp [runLoop, tickBody, newPublicIP, h]

/-- Witness for C4: a timeout on the first tick aborts the loop even though
a second, healthy tick environment was queued. -/
theorem discovery_failure_aborts_loop_witness :
    runLoop (fun _ => []) (fun _ => "") "example.com" "home"
      [{ lookupResp := Except.error "lookup myip.opendns.com: timeout",
         zoneIDResp := Except.ok "zone1",
         recsResp := fun _ => Except.ok [],
         updateResp := fun _ => Except.ok () },
       { lookupResp := Except.ok [[203, 0, 113, 7]],
         zoneIDResp := Except.ok "zone1",
         recsResp := fun _ => Except.ok [],
         updateResp := fun _ => Except.ok () }]
      = [TickOutcome.aborted
          ("DNS lookup error: " ++ "lookup myip.opendns.com: timeout")] :=
  discovery_failure_aborts_loop _ _ _ _ _ _ _ rfl

/-- C2 (refuted): a tick in which no listed record's name matches the
configured name still attempts a provider update: `Sync` runs on the
zero-valued record and issues `UpdateDNSRecord` with empty zone and record
identifiers. -/
theorem no_match_still_attempts_update :
    (tickBody (fun _ => []) (fun _ => "198.51.100.9") "example.com" "home"
        { lookupResp := Except.ok [[198, 51, 100, 9]],
          zoneIDResp := Except.ok "zone1",
          recsResp := fun _ => Except.ok
            [⟨"r1", "zone1", "other.example.com", "A", "198.51.100.5"⟩],
          updateResp := fun _ => Except.error "invalid zone identifier"
        }).updates
      = [⟨"", "", ⟨"", "", "", "", "198.51.100.9"⟩⟩] := by
  rfl

/-- C3 (refuted): a tick whose zone lookup fails with a provider error does
not end early: the error is logged, but `Sync` still runs and attempts a
provider update with empty zone and record identifiers. -/
theorem locate_error_does_not_end_tick :
    tickBody (fun _ => []) (fun _ => "203.0.113.7") "example.com" "home"
        { lookupResp := Except.ok [[203, 0, 113, 7]],
          zoneIDResp := Except.error "zone could not be found",
          recsResp := fun _ => Except.ok [],
          updateResp := fun _ => Except.error "invalid zone identifier" }
      = TickOutcome.completed (some "zone could not be found")
          [⟨"", "", ⟨"", "", "", "", "203.0.113.7"⟩⟩]
          (some "invalid zone identifier") := by
  rfl

/-- `viper.GetString` over the loaded configuration and the registered
defaults: the configured value when the key is set, else the registered
default, else the empty string. -/
def viperGetString (config defaults : List (String × String))
    (key : String) : String :=
  match config.lookup key with
  | some v => v
  | none =>
    match defaults.lookup key with
    | some v => v
    | none => ""

/-- The defaults `main` registers: `viper.SetDefault("record", "@")`. -/
def dynDefaults : List (String × String) := [("record", "@")]

/-- The subdomain label `main` passes to `dynIP`:
`viper.GetString("dns.record")`. -/
def configuredRecordLabel (config : List (String × String)) : String :=
  viperGetString config dynDefaults "dns.record"

/-- C8 (refuted): when the configuration does not set `dns.record`, the
label used is the empty string, not "@": the default was registered under
the key "record", which `main` never reads. -/
theorem record_default_not_applied :
    configuredRecordLabel [("dns.zone", "example.com"), ("tick", "5m")] = ""
    ∧ ("" : String) ≠ "@"
    ∧ viperGetString [("dns.zone", "example.com"), ("tick", "5m")]
        dynDefaults "record" = "@" := by
  exact ⟨rfl, by decide, rfl⟩

/-- Timing model of Go's `time.NewTicker(d)`: the n-th value is delivered
on the ticker's channel (n+1) full periods after the ticker is created;
nothing is delivered earlier, in particular nothing at creation time. -/
def tickerDeliveryTime (period n : Nat) : Nat := (n + 1) * period

/-- A timed event of the `for range time.NewTicker(tick).C` loop:
`recv n t` is the completion, at time `t`, of the blocking channel receive
before iteration n; `body n t` is the start of iteration n's body. -/
inductive LoopEvent where
  | recv (n t : Nat)
  | body (n t : Nat)
  deriving DecidableEq

/-- Timed trace of the first `k` iterations of
`for range time.NewTicker(tick).C { ... }`: before every iteration,
including the first, the loop blocks receiving on the ticker's channel, so
iteration n's body starts once delivery n has occurred and the previous
body (running `dur` time units) has returned.  Returns the event list and
the clock after the last body. -/
def loopTrace (period : Nat) (dur : Nat → Nat) : Nat → List LoopEvent × Nat
  | 0 => ([], 0)
  | Nat.succ n =>
    let p := loopTrace period dur n
    let t := max p.2 (tickerDeliveryTime period n)
    (p.1 ++ [LoopEvent.recv n t, LoopEvent.body n t], t + dur n)

/-- C10: no loop body runs before one full tick period has elapsed: every
body event in the trace starts at or after `period`, and the first body
starts exactly at `period` (one full period after startup). -/
theorem first_tick_waits_full_period (period : Nat) (dur : Nat → Nat)
    (k : Nat) :
    (∀ n t, LoopEvent.body n t ∈ (loopTrace period dur k).1 → period ≤ t)
    ∧ (1 ≤ k →
        LoopEvent.body 0 period ∈ (loopTrace period dur k).1) := by
  induction k with
  | zero =>
    refine ⟨fun n t h => by simp [loopTrace] at h, fun h => by omega⟩
  | succ k ih =>
    constructor
    · intro n t h
      simp only [loopTrace, List.mem_append, List.mem_cons,
        List.mem_singleton] at h
      rcases h with h | h | h | h
      · exact ih.1 n t h
      · cases h
      · injection h with he1 he2
        subst he2
        have h1 : period ≤ tickerDeliveryTime period k := by
          unfold tickerDeliveryTime
          calc period = 1 * period := (Nat.one_mul period).symm
            _ ≤ (k + 1) * period :=
              Nat.mul_le_mul_right period (Nat.succ_le_succ (Nat.zero_le k))
        exact le_trans h1 (Nat.le_max_right _ _)
      · exact absurd h (List.not_mem_nil _)
    · intro _
      rcases Nat.eq_zero_or_pos k with hk | hk
      · subst hk
        simp [loopTrace, tickerDeliveryTime]
      · have hmem := ih.2 hk
        simp only [loopTrace, List.mem_append]
        exact Or.inl hmem

/-- Witness for C10: with a 5-unit period, the trace of one iteration holds
its only body event at time 5 = one full period after startup. -/
theorem first_tick_waits_full_period_witness :
    (5 : Nat) ≤ 5
    ∧ LoopEvent.body 0 5 ∈ (loopTrace 5 (fun _ => 0) 1).1 :=
  ⟨(first_tick_waits_full_period 5 (fun _ => 0) 1).1 0 5
      ((first_tick_waits_full_period 5 (fun _ => 0) 1).2 (by decide)),
    (first_tick_waits_full_period 5 (fun _ => 0) 1).2 (by decide)⟩

end Dyn
